import Mathlib

/-!
Verification of the `EX_Stepper` motion controller
(`src/Arduino/libraries/ST_Anything/EX_Stepper.cpp`).

The development shallowly embeds the controller: the Arduino `String`
routines used by `beSmart` (`indexOf`, `substring`, `trim`, `toInt`), the
Arduino `map()` helper, and the controller's member functions
(`calcMotorPosition`, `init`, `update`, `beSmart`, `refresh`) operating on
an explicit record of the C++ member variables.  C++ machine integers are
modelled as unbounded `Int` (all values exercised by the claims stay far
inside `long` range); C++ `/` on `long` is T-division, i.e. `Int.tdiv`;
the unsigned-long wraparound used for `millis()` arithmetic is taken
mod `2^32`.  Signed integer division by zero is undefined behaviour in
C++, so the one place where a division can fault (`calcMotorPosition`,
line 71 of the source) is modelled with `Option`: `none` is the fault.
-/

namespace STAnything

/-! ## Arduino `String` / C runtime model -/

/-- C `isspace` for the default locale: blank, tab, newline, vertical tab,
form feed, carriage return.  Used by `String::trim` and `atol`. -/
def isSpaceChar (c : Char) : Bool :=
  c = ' ' || c = '\t' || c = '\n' || Char.ofNat 11 = c || Char.ofNat 12 = c || c = '\r'

/-- Helper for `sIndexOf`: index of the first occurrence of `ch`, counting
from `i`, or `-1`. -/
def indexOfAux : List Char → Char → Nat → Int
  | [], _, _ => -1
  | c :: rest, ch, i => if c = ch then (i : Int) else indexOfAux rest ch (i + 1)

/-- Arduino `String::indexOf(char)`: index of the first occurrence of the
character, or `-1` when absent. -/
def sIndexOf (s : String) (c : Char) : Int :=
  indexOfAux s.toList c 0

/-- Conversion of a C `int`/`long` value to `unsigned int`/`unsigned long`
(32-bit on the target), as happens implicitly when such a value is passed
to `String::substring(unsigned int, unsigned int)` or compared against an
`unsigned long`. -/
def u32 (i : Int) : Nat :=
  (i % 4294967296).toNat

/-- Arduino `String::substring(left, right)`: the two arguments are first
converted to `unsigned int`; if `left > right` they are swapped; `left` is
then clamped against the length (empty result) and `right` clamped to the
length; the result is the slice `[left, right)`. -/
def sSubstring (s : String) (l r : Int) : String :=
  let lu := u32 l
  let ru := u32 r
  let left := if lu > ru then ru else lu
  let right := if lu > ru then lu else ru
  let n := s.toList.length
  if left ≥ n then "" else
  let right2 := if right > n then n else right
  String.mk ((s.toList.drop left).take (right2 - left))

/-- Arduino `String::substring(left)`, i.e. `substring(left, len())`. -/
def sSubstringFrom (s : String) (l : Int) : String :=
  sSubstring s l (s.toList.length : Int)

/-- Arduino `String::trim()`: strips leading and trailing `isspace`
characters. -/
def sTrim (s : String) : String :=
  String.mk (((s.toList.dropWhile fun c => isSpaceChar c).reverse.dropWhile
    fun c => isSpaceChar c).reverse)

/-- Value of a list of decimal digit characters, most significant first. -/
def digitsVal (l : List Char) : Nat :=
  l.foldl (fun a c => 10 * a + (c.toNat - 48)) 0

/-- The digit characters that C `atol` actually consumes from a string:
whatever maximal run of decimal digits follows the optional leading
whitespace and optional single sign character.  Empty for an "empty or
non-numeric" field in the sense of the specification. -/
def atolDigits (s : String) : List Char :=
  match s.toList.dropWhile (fun c => isSpaceChar c) with
  | [] => []
  | c :: rest =>
    if c = '-' || c = '+' then rest.takeWhile Char.isDigit
    else (c :: rest).takeWhile Char.isDigit

/-- Arduino `String::toInt()`, which is C `atol`: skip leading whitespace,
read an optional sign, then a maximal run of decimal digits; yield 0 when
no digits are present.  (Overflow, undefined for `atol`, is not modelled;
every value exercised here is tiny.) -/
def sToInt (s : String) : Int :=
  match s.toList.dropWhile (fun c => isSpaceChar c) with
  | [] => 0
  | c :: rest =>
    if c = '-' then - (digitsVal (rest.takeWhile Char.isDigit) : Int)
    else if c = '+' then (digitsVal (rest.takeWhile Char.isDigit) : Int)
    else (digitsVal ((c :: rest).takeWhile Char.isDigit) : Int)

/-- C `labs` (the `abs(...)` applied to a `long` expression in the source). -/
def labs (i : Int) : Int :=
  Int.ofNat i.natAbs

/-- Arduino `map(x, in_min, in_max, out_min, out_max)`:
`(x - in_min) * (out_max - out_min) / (in_max - in_min) + out_min` over
`long`, with C truncating division.  The controller only calls it with
`in_min = 0`, `in_max = 100`, so the divisor is the constant 100. -/
def arduinoMap (x inMin inMax outMin outMax : Int) : Int :=
  Int.tdiv ((x - inMin) * (outMax - outMin)) (inMax - inMin) + outMin

/-- Decimal digits of a natural number (fuel-based helper for
`intDec`). -/
def natDecAux : Nat → Nat → List Char
  | 0, _ => []
  | _ + 1, 0 => []
  | fuel + 1, n => natDecAux fuel (n / 10) ++ [Char.ofNat (48 + n % 10)]

/-- Arduino `String(long)` / `String(int)`: decimal representation. -/
def intDec (i : Int) : String :=
  if i < 0 then "-" ++ String.mk (natDecAux i.natAbs i.natAbs)
  else if i = 0 then "0"
  else String.mk (natDecAux i.toNat i.toNat)

/-! ## Controller state

The AccelStepper object is the external stepping primitive (out of scope
per the specification); it is modelled at its interface: a current
position, a target position, a maximum speed, and whether the driver
outputs are enabled.  `run()` is driven by an environment-chosen
post-step position supplied to `update`. -/

structure AccelStepperState where
  currentPosition : Int
  targetPosition : Int
  maxSpeed : Int
  outputsEnabled : Bool
deriving DecidableEq

/-- The member variables of `st::EX_Stepper` (plus the device name held by
the `Executor` base class).  `m_nPrevMillis` is an `unsigned long` member
that is declared but never assigned by any member function in
`EX_Stepper.cpp`; it keeps whatever value it had at construction. -/
structure ControllerState where
  name : String
  stepper : AccelStepperState
  m_nCurrentLevel : Int
  m_nTargetAngle : Int
  m_nCurrentAngle : Int
  m_nOldAngle : Int
  m_nCurrentRate : Int
  m_nMinLevelAngle : Int
  m_nMaxLevelAngle : Int
  m_nTimeStep : Int
  m_bMoveActive : Bool
  m_bDisableTmrActive : Bool
  m_bDisableAfterMove : Bool
  m_nDisableTime : Int
  m_nPrevMillis : Nat
deriving DecidableEq

/-- The `EX_Stepper` constructor (source lines 84–98).  It initialises the
member-initialiser-list fields and sets
`m_nOldAngle = (minLevelAngle + maxLevelAngle) / 2`.  The members
`m_nCurrentLevel`, `m_nCurrentAngle`, `m_nTimeStep` and `m_nPrevMillis`
are left uninitialised by the C++ constructor, so their indeterminate
initial values are parameters here; likewise the initial state of the
external AccelStepper member is a parameter (the library starts it at
position 0). -/
def construct (name : String) (startingAngle : Int) (disableAfterMove : Bool)
    (servoDisableTime : Int) (minLevelAngle maxLevelAngle stepRate : Int)
    (currentLevel0 currentAngle0 timeStep0 : Int) (prevMillis0 : Nat)
    (stepper0 : AccelStepperState) : ControllerState :=
  { name := name
    stepper := stepper0
    m_nCurrentLevel := currentLevel0
    m_nTargetAngle := startingAngle
    m_nCurrentAngle := currentAngle0
    m_nOldAngle := Int.tdiv (minLevelAngle + maxLevelAngle) 2
    m_nCurrentRate := stepRate
    m_nMinLevelAngle := minLevelAngle
    m_nMaxLevelAngle := maxLevelAngle
    m_nTimeStep := timeStep0
    m_bMoveActive := false
    m_bDisableTmrActive := false
    m_bDisableAfterMove := disableAfterMove
    m_nDisableTime := servoDisableTime
    m_nPrevMillis := prevMillis0 }

/-- The two sequential clamp `if`s of `calcMotorPosition` (source lines
54–69): when the target is below both bounds it is raised to the lower of
the two; when (after that) it is above both bounds it is lowered to the
higher of the two. -/
def clampTarget (t mn mx : Int) : Int :=
  let t1 := if t < mn ∧ t < mx then (if mn < mx then mn else mx) else t
  if t1 > mx ∧ t1 > mn then (if mx > mn then mx else mn) else t1

/-- `EX_Stepper::calcMotorPosition` (source lines 46–80): clears then
re-arms `m_bMoveActive`, calls `m_Stepper.enableOutputs()`, clamps
`m_nTargetAngle` against the two bounds, computes
`m_nTimeStep = abs(m_nCurrentRate / (m_nMaxLevelAngle - m_nMinLevelAngle))`,
copies `m_nOldAngle` into `m_nCurrentAngle`, and sets `m_bMoveActive`.
The division has no guard in the source; when
`m_nMaxLevelAngle = m_nMinLevelAngle` it is a signed division by zero —
undefined behaviour, modelled as `none`.  The outputs-enable side effect
precedes the faulting division in the source. -/
def calcMotorPosition (s : ControllerState) : Option ControllerState :=
  let s1 := { s with m_bMoveActive := false,
                     stepper := { s.stepper with outputsEnabled := true } }
  let t := clampTarget s1.m_nTargetAngle s1.m_nMinLevelAngle s1.m_nMaxLevelAngle
  if s1.m_nMaxLevelAngle - s1.m_nMinLevelAngle = 0 then none
  else some { s1 with
    m_nTargetAngle := t
    m_nTimeStep := labs (Int.tdiv s1.m_nCurrentRate (s1.m_nMaxLevelAngle - s1.m_nMinLevelAngle))
    m_nCurrentAngle := s1.m_nOldAngle
    m_bMoveActive := true }

/-- `EX_Stepper::init` (source lines 106–114): configures the stepping
primitive (`setEnablePin`, `setPinsInverted` and `setAcceleration(100)`
are pin/profile configuration of the external primitive, not modelled),
seeds its speed limit from `m_nCurrentRate`, and calls
`calcMotorPosition` followed by `refresh()` (a pure status emission). -/
def init (s : ControllerState) : Option ControllerState :=
  calcMotorPosition { s with stepper := { s.stepper with maxSpeed := s.m_nCurrentRate } }

/-- `EX_Stepper::update` (source lines 116–145), one scheduler tick.
`runPos` is the position of the external AccelStepper after its `run()`
call (its step generation is external behaviour); `now` is the `millis()`
value read at line 137.  When a move is active the target is pushed with
`moveTo`, completion (`targetPosition() == currentPosition()`) clears
`m_bMoveActive` and, if `m_bDisableAfterMove`, arms `m_bDisableTmrActive`
(no timestamp is recorded anywhere); then `run()` executes; then, if the
disable timer is armed and `(millis() - m_nPrevMillis) > m_nDisableTime`
(unsigned 32-bit arithmetic), the timer is cleared and
`disableOutputs()` fires. -/
def update (s : ControllerState) (runPos : Int) (now : Nat) : ControllerState :=
  let s1 :=
    if s.m_bMoveActive then
      let sm := { s with stepper := { s.stepper with targetPosition := s.m_nTargetAngle } }
      if sm.stepper.targetPosition = sm.stepper.currentPosition then
        let sc := { sm with m_bMoveActive := false }
        if sc.m_bDisableAfterMove then { sc with m_bDisableTmrActive := true } else sc
      else sm
    else s
  let s2 := { s1 with stepper := { s1.stepper with currentPosition := runPos } }
  if s2.m_bDisableTmrActive then
    if u32 ((now : Int) - (s2.m_nPrevMillis : Int)) > u32 s2.m_nDisableTime then
      { s2 with m_bDisableTmrActive := false,
                stepper := { s2.stepper with outputsEnabled := false } }
    else s2
  else s2

/-- The four substrings extracted by `EX_Stepper::beSmart` (source lines
149–159): all four start out as `""` and are only assigned when the line
contains no `'!'`. -/
def beSmartFields (str : String) : String × String × String × String :=
  if sIndexOf str '!' = -1 then
    (sSubstring str (sIndexOf str ' ' + 1) (sIndexOf str ':'),
     sSubstring str (sIndexOf str ':' + 1) (sIndexOf str '+'),
     sSubstring str (sIndexOf str '+' + 1) (sIndexOf str '-'),
     sSubstringFrom str (sIndexOf str '-' + 1))
  else ("", "", "", "")

/-- The `(level, rate, max, min)` integers `beSmart` commits (source lines
161–164 and 177–181): each extracted substring is trimmed and converted
with `String::toInt()`. -/
def beSmartParse (str : String) : Int × Int × Int × Int :=
  let f := beSmartFields str
  (sToInt (sTrim f.1), sToInt (sTrim f.2.1), sToInt (sTrim f.2.2.1), sToInt (sTrim f.2.2.2))

/-- The unconditional member assignments of `beSmart` (source lines
177–183): commit the parsed fields, push the new rate to
`m_Stepper.setMaxSpeed`, save `m_nOldAngle = m_nCurrentAngle`, and map the
level onto the new angle range with `map(level, 0, 100, min, max)`. -/
def beSmartApply (s : ControllerState) (str : String) : ControllerState :=
  let p := beSmartParse str
  { s with
    m_nCurrentLevel := p.1
    m_nCurrentRate := p.2.1
    stepper := { s.stepper with maxSpeed := p.2.1 }
    m_nMaxLevelAngle := p.2.2.1
    m_nMinLevelAngle := p.2.2.2
    m_nOldAngle := s.m_nCurrentAngle
    m_nTargetAngle := arduinoMap p.1 0 100 p.2.2.2 p.2.2.1 }

/-- `EX_Stepper::beSmart` (source lines 147–196): the assignments above
followed by `calcMotorPosition()`. -/
def beSmart (s : ControllerState) (str : String) : Option ControllerState :=
  calcMotorPosition (beSmartApply s str)

/-- `EX_Stepper::refresh` (source lines 198–201): the outbound status
string handed to `Everything::sendSmartString`. -/
def refresh (s : ControllerState) : String :=
  s.name ++ " " ++ intDec s.m_nCurrentLevel ++ ":" ++ intDec s.m_nTargetAngle
    ++ ":" ++ intDec s.m_nCurrentRate

/-! ## Concrete states and traces used by the theorems

`ex0` is the controller of the header's usage example: range 0–180,
starting angle 90, rate 2000, `disableAfterMove = true` with a 1000 ms
delay.  The indeterminate (uninitialised) members are taken to be 0 and
the external AccelStepper starts at position 0, as the library leaves it. -/

def stepperZero : AccelStepperState := ⟨0, 0, 1, false⟩

def ex0 : ControllerState :=
  construct "stepper1" 90 true 1000 0 180 2000 0 0 0 0 stepperZero

/-- The state after `init` on `ex0` (the `init` succeeds, as certified in
the claim-C3 theorem, so the `getD` default is never taken). -/
def exInit : ControllerState := (init ex0).getD ex0

/-- One tick at `millis() = 100`: the move to 90 is pushed and the
external primitive steps to position 90 (completion is only detected on
the next tick, since the position test precedes `run()`). -/
def exM1 : ControllerState := update exInit 90 100

/-- The next tick at `millis() = 400`: the move is detected complete,
`m_bMoveActive` is cleared and the disable countdown is armed. -/
def exDone : ControllerState := update exM1 90 400

/-- A tick on which the external primitive has only reached position 40:
the move to 90 is still in flight afterwards. -/
def exMid : ControllerState := update exInit 40 100

/-- A controller with distinctive member values, for the claim-C1 theorem:
level 50, rate 2000, range 10–170, target 90, internal current angle 42. -/
def exC1 : ControllerState :=
  construct "stepper1" 90 true 1000 10 170 2000 50 42 7 0 stepperZero

/-- A controller constructed with the degenerate range
`minLevelAngle = maxLevelAngle = 90` and a starting target of 120. -/
def exEq : ControllerState :=
  construct "stepper1" 120 false 1000 90 90 2000 0 0 0 0 stepperZero

/-- A state with the claim-C8 field values `(level 50, target 90,
rate 2000)` and name `"stepper1"`. -/
def exC8 : ControllerState :=
  { exC1 with m_nCurrentLevel := 50, m_nTargetAngle := 90, m_nCurrentRate := 2000 }

/-! ## Helper lemmas -/

/-- For `0 ≤ l ≤ 100` and `0 ≤ d`, the truncating division
`(l * d) / 100` stays within `[0, d]`. -/
theorem tdiv_scale_nonneg {l d : Int} (h0 : 0 ≤ l) (h1 : l ≤ 100) (hd : 0 ≤ d) :
    0 ≤ Int.tdiv (l * d) 100 ∧ Int.tdiv (l * d) 100 ≤ d := by
  have hnum : 0 ≤ l * d := mul_nonneg h0 hd
  rw [Int.tdiv_eq_ediv hnum (by norm_num)]
  refine ⟨Int.ediv_nonneg hnum (by norm_num), ?_⟩
  have hle : l * d ≤ 100 * d := mul_le_mul_of_nonneg_right h1 hd
  calc l * d / 100 ≤ 100 * d / 100 := Int.ediv_le_ediv (by norm_num) hle
    _ = d := Int.mul_ediv_cancel_left d (by norm_num)

/-- For `0 ≤ l ≤ 100` and any `d`, the truncating division
`(l * d) / 100` stays within `[min 0 d, max 0 d]` (truncation rounds
toward zero on either sign of `d`). -/
theorem tdiv_scale_bounds {l : Int} (d : Int) (h0 : 0 ≤ l) (h1 : l ≤ 100) :
    min 0 d ≤ Int.tdiv (l * d) 100 ∧ Int.tdiv (l * d) 100 ≤ max 0 d := by
  rcases le_total 0 d with hd | hd
  · have hb := tdiv_scale_nonneg h0 h1 hd
    omega
  · have hd2 : 0 ≤ -d := by omega
    have hb := tdiv_scale_nonneg h0 h1 hd2
    have heq : l * d = -(l * -d) := by ring
    rw [heq, Int.neg_tdiv]
    omega

/-- `String::toInt` (C `atol`) yields 0 whenever it finds no digits — the
"empty or non-numeric field" case of the protocol. -/
theorem sToInt_eq_zero_of_no_digits (s : String) (h : atolDigits s = []) :
    sToInt s = 0 := by
  unfold atolDigits at h
  unfold sToInt
  cases hm : s.toList.dropWhile (fun c => isSpaceChar c) with
  | nil => rfl
  | cons c rest =>
    rw [hm] at h
    dsimp only at h ⊢
    by_cases hcm : c = '-'
    · rw [if_pos hcm]
      have h2 : rest.takeWhile Char.isDigit = [] := by simpa [hcm] using h
      rw [h2]
      rfl
    · by_cases hcp : c = '+'
      · rw [if_neg hcm, if_pos hcp]
        have h2 : rest.takeWhile Char.isDigit = [] := by simpa [hcm, hcp] using h
        rw [h2]
        rfl
      · rw [if_neg hcm, if_neg hcp]
        have h2 : (c :: rest).takeWhile Char.isDigit = [] := by simpa [hcm, hcp] using h
        rw [h2]
        rfl

/-! ## The claims -/

/-- Claim C1: the claim says a line containing `'!'` is a complete no-op
for the controller.  The code refutes it: the `indexOf('!')` guard only
skips the substring extraction, while the member assignments of lines
177–183 and the `calcMotorPosition()` call run unconditionally.  On the
concrete controller `exC1` the line `"refresh!"` overwrites
`currentLevel` (50→0), `rate` (2000→0), `minAngle` (10→0), `maxAngle`
(170→0), `targetAngle` (90→0) and `oldAngle` (90→42), and the subsequent
`calcMotorPosition` — after enabling outputs — divides by the now
zero-width range, a division fault (`none`). -/
theorem claim_C1_bang_line_is_not_a_noop :
    sIndexOf "refresh!" '!' ≠ -1 ∧
    (beSmartApply exC1 "refresh!").m_nCurrentLevel = 0 ∧ exC1.m_nCurrentLevel = 50 ∧
    (beSmartApply exC1 "refresh!").m_nCurrentRate = 0 ∧ exC1.m_nCurrentRate = 2000 ∧
    (beSmartApply exC1 "refresh!").m_nMinLevelAngle = 0 ∧ exC1.m_nMinLevelAngle = 10 ∧
    (beSmartApply exC1 "refresh!").m_nMaxLevelAngle = 0 ∧ exC1.m_nMaxLevelAngle = 170 ∧
    (beSmartApply exC1 "refresh!").m_nTargetAngle = 0 ∧ exC1.m_nTargetAngle = 90 ∧
    (beSmartApply exC1 "refresh!").m_nOldAngle = 42 ∧ exC1.m_nOldAngle = 90 ∧
    beSmart exC1 "refresh!" = none := by decide

/-- Claim C2: the claim says the `timeStep = |rate / (maxAngle - minAngle)|`
computation is guarded in the `minAngle == maxAngle` case.  The code
refutes it: line 71 divides by `(m_nMaxLevelAngle - m_nMinLevelAngle)`
with no guard whatsoever, so the degenerate range is a signed division by
zero (undefined behaviour, `none` here).  The clamp that precedes the
division does pin the target to the single angle (120 → 90), but the
fault still occurs — both on a directly constructed degenerate
configuration and via the command `"50:2000+90-90"`. -/
theorem claim_C2_zero_range_division_unguarded :
    exEq.m_nMinLevelAngle = exEq.m_nMaxLevelAngle ∧
    exEq.m_nTargetAngle = 120 ∧
    clampTarget exEq.m_nTargetAngle exEq.m_nMinLevelAngle exEq.m_nMaxLevelAngle = 90 ∧
    calcMotorPosition exEq = none ∧
    beSmart ex0 "50:2000+90-90" = none := by decide

/-- Claim C3: the claim says `moveActive` and `disableTimerActive` are
never both true in a reachable state.  The code refutes it: nothing in
`beSmart`/`calcMotorPosition` clears `m_bDisableTmrActive`, so a command
arriving during an armed disable countdown re-arms `m_bMoveActive` while
the countdown keeps running.  Concretely: after `init` on `ex0` and two
ticks the move completes and the countdown is armed
(`exDone`: moveActive = false, disableTmrActive = true); the command
`"75:2000+180-0"` then yields a state with both flags true. -/
theorem claim_C3_both_flags_reachable :
    init ex0 = some exInit ∧
    exDone.m_bMoveActive = false ∧ exDone.m_bDisableTmrActive = true ∧
    (beSmart exDone "75:2000+180-0").map
      (fun s => (s.m_bMoveActive, s.m_bDisableTmrActive)) = some (true, true) := by decide

/-- Claim C4: the claim says the move-completion time is recorded when the
disable timer is armed, and output-enable is deasserted no earlier than
`disableDelay` after completion.  The code refutes it: no member function
ever assigns `m_nPrevMillis` (the first two conjuncts, over all states
and inputs, cover the two operations that mutate state), so line 137
compares `millis()` against a stale value.  Concretely, with
`m_nPrevMillis` still 0 and `disableDelay = 1000`: before the completion
tick the timer is unarmed and outputs are on; the single tick at
`millis() = 5001` that detects completion arms the timer and fires it in
the same call — outputs are deasserted 0 ms after move completion. -/
theorem claim_C4_disable_time_never_recorded :
    (∀ (s : ControllerState) (runPos : Int) (now : Nat),
      (update s runPos now).m_nPrevMillis = s.m_nPrevMillis) ∧
    (∀ (s : ControllerState) (str : String),
      (beSmartApply s str).m_nPrevMillis = s.m_nPrevMillis) ∧
    ex0.m_nDisableTime = 1000 ∧
    (update exInit 90 5000).m_bMoveActive = true ∧
    (update exInit 90 5000).m_bDisableTmrActive = false ∧
    (update exInit 90 5000).stepper.outputsEnabled = true ∧
    (update (update exInit 90 5000) 90 5001).m_bMoveActive = false ∧
    (update (update exInit 90 5000) 90 5001).m_bDisableTmrActive = false ∧
    (update (update exInit 90 5000) 90 5001).stepper.outputsEnabled = false := by
  refine ⟨?_, fun s str => rfl, by decide⟩
  intro s runPos now
  unfold update
  dsimp only
  repeat' split
  all_goals rfl

/-- Claim C5: the claim says a command arriving mid-move or mid-countdown
cancels the pending disable countdown and restarts the trajectory from
the motor's actual current position.  The code refutes both parts:
`beSmart` never touches `m_bDisableTmrActive` (on `exDone`, whose
countdown is armed, the flag is still true after the command), and line
182 sets `m_nOldAngle` from the internal `m_nCurrentAngle` — never read
from the primitive's `currentPosition()` — so on `exMid`, where the motor
is actually at 40, the new trajectory starts from the stale internal
angle 90. -/
theorem claim_C5_command_keeps_countdown_and_stale_angle :
    exDone.m_bDisableTmrActive = true ∧
    (beSmart exDone "75:2000+180-0").map (fun s => s.m_bDisableTmrActive) = some true ∧
    exMid.m_bMoveActive = true ∧
    exMid.stepper.currentPosition = 40 ∧ exMid.m_nCurrentAngle = 90 ∧
    (beSmart exMid "75:2000+180-0").map (fun s => s.m_nOldAngle) = some 90 := by decide

/-- Claim C6: for every `level ∈ [0, 100]` and bounds `a ≠ b` in either
order, the mapped target `map(level, 0, 100, a, b)` (i.e.
`a + level * (b - a) / 100` with C truncating division) lies within
`[min a b, max a b]`, level 0 maps exactly to `a`, and level 100 maps
exactly to `b`. -/
theorem claim_C6_map_level_bounds (level a b : Int)
    (h0 : 0 ≤ level) (h1 : level ≤ 100) (_hab : a ≠ b) :
    min a b ≤ arduinoMap level 0 100 a b ∧ arduinoMap level 0 100 a b ≤ max a b ∧
    arduinoMap 0 0 100 a b = a ∧ arduinoMap 100 0 100 a b = b := by
  unfold arduinoMap
  have hb := tdiv_scale_bounds (b - a) h0 h1
  have h100 : Int.tdiv (100 * (b - a)) 100 = b - a :=
    Int.mul_tdiv_cancel_left (b - a) (by norm_num)
  simp only [sub_zero, zero_sub, Int.zero_tdiv, zero_mul, one_mul] at *
  refine ⟨by omega, by omega, ?_, by omega⟩
  simp [Int.zero_tdiv]

/-- Witness for claim C6 at `level = 50`, bounds `(0, 180)`. -/
theorem claim_C6_map_level_bounds_witness :
    min (0 : Int) 180 ≤ arduinoMap 50 0 100 0 180 ∧
    arduinoMap 50 0 100 0 180 ≤ max (0 : Int) 180 ∧
    arduinoMap 0 0 100 0 180 = 0 ∧ arduinoMap 100 0 100 0 180 = 180 :=
  claim_C6_map_level_bounds 50 0 180 (by norm_num) (by norm_num) (by norm_num)

/-- Claim C7: parsing `"50:2000+180-0"` yields `(level 50, rate 2000,
max 180, min 0)`; parsing `"abc:xyz+180-0"` yields `(0, 0, 180, 0)`; and
in general any field in which `atol` finds no digits (empty or
non-numeric) converts to 0 rather than propagating an error. -/
theorem claim_C7_parser_tolerant :
    beSmartParse "50:2000+180-0" = (50, 2000, 180, 0) ∧
    beSmartParse "abc:xyz+180-0" = (0, 0, 180, 0) ∧
    (∀ s : String, atolDigits s = [] → sToInt s = 0) :=
  ⟨by decide, by decide, sToInt_eq_zero_of_no_digits⟩

/-- Witness for claim C7 at the non-numeric field `"xyz"`. -/
theorem claim_C7_parser_tolerant_witness :
    atolDigits "xyz" = [] ∧ sToInt "xyz" = 0 :=
  ⟨by decide, claim_C7_parser_tolerant.2.2 "xyz" (by decide)⟩

/-- Claim C8: `refresh` formats the outbound status string as the device
name, one space, then `currentLevel`, `targetAngle` and `currentRate`
joined by colons; on name `"stepper1"`, level 50, target 90, rate 2000
it emits exactly `"stepper1 50:90:2000"`. -/
theorem claim_C8_refresh_format :
    (∀ s : ControllerState,
      refresh s = s.name ++ " " ++ intDec s.m_nCurrentLevel ++ ":"
        ++ intDec s.m_nTargetAngle ++ ":" ++ intDec s.m_nCurrentRate) ∧
    exC8.name = "stepper1" ∧ exC8.m_nCurrentLevel = 50 ∧
    exC8.m_nTargetAngle = 90 ∧ exC8.m_nCurrentRate = 2000 ∧
    refresh exC8 = "stepper1 50:90:2000" :=
  ⟨fun _ => rfl, by decide⟩

/-- Claim C9 counterexample: the claim says every `beSmart` on a
`'!'`-free string ends with `moveActive = true` and outputs enabled.  On
the `'!'`-free command `"50:2000+180-180"` the extracted bounds are both
180, so `calcMotorPosition` divides by zero: the call faults (`none`)
instead of ending in a state at all. -/
theorem claim_C9_counterexample :
    sIndexOf "50:2000+180-180" '!' = -1 ∧
    beSmart ex0 "50:2000+180-180" = none := by decide

/-- Claim C9 as amended: whenever the extracted max and min fields differ,
`beSmart` returns a state with `moveActive = true` and outputs enabled,
regardless of whether the new target equals the previous target or the
current position; likewise `init` whenever the configured bounds differ —
because `calcMotorPosition` always calls `enableOutputs()` and always
sets `m_bMoveActive` before returning. -/
theorem claim_C9_arms_move_unconditionally :
    (∀ (s : ControllerState) (str : String),
      (beSmartParse str).2.2.1 ≠ (beSmartParse str).2.2.2 →
      (beSmart s str).map
        (fun t => (t.m_bMoveActive, t.stepper.outputsEnabled)) = some (true, true)) ∧
    (∀ s : ControllerState, s.m_nMaxLevelAngle ≠ s.m_nMinLevelAngle →
      (init s).map
        (fun t => (t.m_bMoveActive, t.stepper.outputsEnabled)) = some (true, true)) := by
  constructor
  · intro s str h
    have hne : (beSmartParse str).2.2.1 - (beSmartParse str).2.2.2 ≠ 0 := sub_ne_zero_of_ne h
    unfold beSmart calcMotorPosition
    dsimp only
    rw [if_neg]
    · rfl
    · exact hne
  · intro s h
    have hne : s.m_nMaxLevelAngle - s.m_nMinLevelAngle ≠ 0 := sub_ne_zero_of_ne h
    unfold init calcMotorPosition
    dsimp only
    rw [if_neg]
    · rfl
    · exact hne

/-- Witness for the amended claim C9 at `ex0` and the command
`"50:2000+180-0"`. -/
theorem claim_C9_arms_move_unconditionally_witness :
    (beSmart ex0 "50:2000+180-0").map
      (fun t => (t.m_bMoveActive, t.stepper.outputsEnabled)) = some (true, true) :=
  claim_C9_arms_move_unconditionally.1 ex0 "50:2000+180-0" (by decide)

/-- Claim C10 counterexample: the claim says `update` only ever CLEARS
`moveActive` and `disableTimerActive`.  On the tick that detects move
completion with `disableAfterMove` set, `update` SETS
`m_bDisableTmrActive` from false to true. -/
theorem claim_C10_counterexample :
    exM1.m_bDisableTmrActive = false ∧
    (update exM1 90 400).m_bDisableTmrActive = true := by decide

/-- Claim C10 as amended: every `update` call leaves the motor
configuration and trajectory fields unchanged — `minAngle`, `maxAngle`,
`rate`, `currentLevel`, `targetAngle`, `oldAngle`, `timeStep` (and also
`currentAngle`, `prevMillis`, the policy fields and the name) — the only
controller fields `update` modifies are `moveActive` (cleared) and
`disableTimerActive` (armed or cleared), besides driving the delegated
stepping primitive. -/
theorem claim_C10_update_frame (s : ControllerState) (runPos : Int) (now : Nat) :
    (update s runPos now).m_nMinLevelAngle = s.m_nMinLevelAngle ∧
    (update s runPos now).m_nMaxLevelAngle = s.m_nMaxLevelAngle ∧
    (update s runPos now).m_nCurrentRate = s.m_nCurrentRate ∧
    (update s runPos now).m_nCurrentLevel = s.m_nCurrentLevel ∧
    (update s runPos now).m_nTargetAngle = s.m_nTargetAngle ∧
    (update s runPos now).m_nOldAngle = s.m_nOldAngle ∧
    (update s runPos now).m_nTimeStep = s.m_nTimeStep ∧
    (update s runPos now).m_nCurrentAngle = s.m_nCurrentAngle ∧
    (update s runPos now).m_nPrevMillis = s.m_nPrevMillis ∧
    (update s runPos now).m_bDisableAfterMove = s.m_bDisableAfterMove ∧
    (update s runPos now).m_nDisableTime = s.m_nDisableTime ∧
    (update s runPos now).name = s.name := by
  unfold update
  dsimp only
  repeat' split
  all_goals exact ⟨rfl, rfl, rfl, rfl, rfl, rfl, rfl, rfl, rfl, rfl, rfl, rfl⟩

end STAnything
